import Mathlib

/-!
Shallow embedding of `caproto/ioc_examples/complete_mirror.py`: a mirror IOC
that resolves a remote PV, serves a matching local PV, keeps the local value in
sync via a subscription, and forwards client writes to the remote PV, using a
context-local guard (`internal_process`) to suppress feedback loops.
-/

namespace CompleteMirror

/-- Values carried by a PV: numeric data or an enum-label string (the client
may write an enum PV with a label string). -/
inductive Value where
  | num : Int → Value
  | str : String → Value
deriving DecidableEq, Repr

/-- The local PV's value/timestamp store (the state committed by
`instance.write`). -/
structure Store where
  val : Value
  timestamp : Nat
deriving DecidableEq, Repr

/-- An execution context identifier (a `contextvars` context: one per logical
task). -/
abbrev Ctx := Nat

/-- The state of the `internal_process` context variable: one boolean per
execution context (line 14 of the source, `contextvars.ContextVar` with
`default=False`). -/
abbrev GuardMap := Ctx → Bool

/-- The initial state of `internal_process`: false in every context
(`default=False`). -/
def defaultGuard : GuardMap := fun _ => false

/-- Setting the context variable in context `c` (`internal_process.set(b)`):
only context `c` observes the new value. -/
def setGuard (g : GuardMap) (c : Ctx) (b : Bool) : GuardMap :=
  fun c' => if c' = c then b else g c'

/-- Native data types relevant to the mirror; `enumType` stands for the
members of `ca.enum_types`. -/
inductive DType where
  | float64
  | int32
  | enumType
  | stringType
deriving DecidableEq, Repr

/-- The set `ca.enum_types` of enumerated native data types. -/
def enum_types : List DType := [DType.enumType]

/-- The transient channel opened by the resolver, with the fields
`make_pvproperty` reads: native type/count, declared text encoding (as the
byte-string decoding function), and access rights (`AccessRights.WRITE in
chan.access_rights` as a boolean). -/
structure Channel where
  native_data_type : DType
  native_data_count : Nat
  string_encoding : List Nat → String
  access_write : Bool

/-- Control-variant metadata of the resolver's read response: the enum label
byte strings (`resp.metadata.enum_strings`). -/
structure ControlMetadata where
  enum_strings : List (List Nat)

/-- The resolver's read response: current data plus control metadata. -/
structure ReadResponse where
  data : Value
  metadata : ControlMetadata

/-- Lines 64-71: the `extra` keyword dictionary — for an enumerated native
type, the labels decoded from the response metadata with the channel's
declared text encoding; for any other type, nothing. -/
def resolve_enum_strings (chan : Channel) (resp : ReadResponse) :
    Option (List String) :=
  if chan.native_data_type ∈ enum_types then
    some (resp.metadata.enum_strings.map chan.string_encoding)
  else
    none

/-- The local PV definition produced by `make_pvproperty` (the `pvproperty`
keyword arguments on lines 73-79). -/
structure PVSpec where
  value : Value
  dtype : DType
  max_length : Nat
  read_only : Bool
  enum_strings : Option (List String)

/-- Lines 73-79: build the local `pvproperty` from the resolved channel and
read response; `read_only` is `force_read_only or (AccessRights.WRITE not in
chan.access_rights)`. -/
def make_pvspec (force_read_only : Bool) (chan : Channel) (resp : ReadResponse) :
    PVSpec :=
  { value := resp.data
    dtype := chan.native_data_type
    max_length := chan.native_data_count
    read_only := force_read_only || !chan.access_write
    enum_strings := resolve_enum_strings chan resp }

/-- Modelled from the spec: caproto's `instance.get_raw_value` (called on line
116), which converts the client's representation of an enum value to the
remote's raw integer code — the index of the label in the enum string list;
numeric values pass through unchanged. -/
def get_raw_value (enum_strings : List String) (v : Value) : Value :=
  match v with
  | Value.str s => Value.num (enum_strings.indexOf s : Int)
  | Value.num n => Value.num n

/-- What the serving runtime is told to do with a written value: the putter
returned a value to commit, raised `ca.SkipWrite` (accept the write without
committing), or raised another exception (the write fails). -/
inductive PutterResult where
  | commit : Value → PutterResult
  | skipWrite : PutterResult
  | writeFailed : PutterResult
deriving DecidableEq, Repr

/-- One outbound network write to the remote PV (`pv.write(value,
timeout=500)` on line 118): the value sent and the timeout bound. -/
structure RemoteCall where
  value : Value
  timeout : Nat
deriving DecidableEq, Repr

/-- Lines 109-120, the `value.putter`: if `internal_process.get()` is set,
return the value unchanged (no network action); otherwise convert an
enumerated value to its raw code, forward it to the remote PV with
`timeout=500`, and — if the remote write succeeds — raise `ca.SkipWrite`.
`remoteOk` is whether the remote write acknowledges within the bound; the
returned list records the outbound remote-write calls performed. -/
def putter (isEnum : Bool) (enum_strings : List String) (guard : Bool)
    (remoteOk : Bool) (v : Value) : PutterResult × List RemoteCall :=
  if guard then
    (PutterResult.commit v, [])
  else
    let v' := if isEnum then get_raw_value enum_strings v else v
    if remoteOk then
      (PutterResult.skipWrite, [⟨v', 500⟩])
    else
      (PutterResult.writeFailed, [⟨v', 500⟩])

/-- Result of one write request against the local PV: the store afterwards,
the outbound remote-write calls performed, and whether the write succeeded
from the writer's point of view. -/
structure WriteResult where
  store : Store
  calls : List RemoteCall
  ok : Bool
deriving DecidableEq, Repr

/-- Modelled from the spec: the PV-serving runtime's write path
(`inst.write` / a client write), which is not under `src/`. It invokes the
registered putter; if the putter returns a value the store commits it with the
supplied timestamp (the commit itself may fail, `storeOk`, leaving the store
untouched); if the putter raises `SkipWrite` the store is untouched and the
write succeeds; any other exception from the putter makes the write fail with
the store untouched. -/
def inst_write (isEnum : Bool) (enum_strings : List String) (guard : Bool)
    (remoteOk storeOk : Bool) (st : Store) (v : Value) (ts : Nat) :
    WriteResult :=
  match putter isEnum enum_strings guard remoteOk v with
  | (PutterResult.commit v', calls) =>
      if storeOk then ⟨⟨v', ts⟩, calls, true⟩ else ⟨st, calls, false⟩
  | (PutterResult.skipWrite, calls) => ⟨st, calls, true⟩
  | (PutterResult.writeFailed, calls) => ⟨st, calls, false⟩

/-- The guard state in effect while the subscription callback's body runs in
context `c` (after `internal_process.set(True)` on line 84). -/
def callbackGuard (g : GuardMap) (c : Ctx) : GuardMap := setGuard g c true

/-- Result of one run of the subscription callback: the guard state after the
`finally`, the store, the outbound remote-write calls, and whether the inner
store write succeeded. -/
structure CallbackResult where
  guardAfter : GuardMap
  store : Store
  calls : List RemoteCall
  ok : Bool

/-- Lines 81-92, `_callback`: in its execution context `c`, set
`internal_process` to true, write the inbound data with the response's
timestamp into the local PV via `inst.write` (which invokes the putter in the
same context), and in the `finally` set `internal_process` back to false. -/
def callback (isEnum : Bool) (enum_strings : List String) (g : GuardMap)
    (c : Ctx) (remoteOk storeOk : Bool) (st : Store) (data : Value) (ts : Nat) :
    CallbackResult :=
  let g1 := callbackGuard g c
  let w := inst_write isEnum enum_strings (g1 c) remoteOk storeOk st data ts
  { guardAfter := setGuard g1 c false
    store := w.store
    calls := w.calls
    ok := w.ok }

/-- A client-initiated write arriving in execution context `c`: the serving
runtime runs the putter in that context, so the guard it observes is `g c`. -/
def client_write (isEnum : Bool) (enum_strings : List String) (g : GuardMap)
    (c : Ctx) (remoteOk storeOk : Bool) (st : Store) (v : Value) (now : Nat) :
    WriteResult :=
  inst_write isEnum enum_strings (g c) remoteOk storeOk st v now

/-- Data kinds a subscription can request. -/
inductive DataKind where
  | time
  | control
  | native
deriving DecidableEq, Repr

/-- Line 102: the startup hook subscribes with `data_type="time"`, requesting
time-stamped value updates. -/
def startup_subscribe_kind : DataKind := DataKind.time

/-- The process-wide connection caches of `caproto.sync.client`
(`csc.sockets` and `csc.global_circuits`), holding entries by identifier. -/
structure CscCache where
  sockets : List Nat
  global_circuits : List Nat
deriving DecidableEq, Repr

/-- State of the resolver's transient channel: whether it connected and
whether a clear request was sent for it. -/
structure ChanConn where
  connected : Bool
  cleared : Bool
deriving DecidableEq, Repr

/-- Modelled from the spec: `csc.make_channel_from_address` (line 52, code not
under `src/`) opens a transient connection and registers its socket and
circuit in the process-wide caches; on success the channel is connected. -/
def make_channel_from_address (cache : CscCache) (sockId : Nat) :
    CscCache × ChanConn :=
  ({ sockets := sockId :: cache.sockets
     global_circuits := sockId :: cache.global_circuits },
   { connected := true, cleared := false })

/-- Connection-state outcome of resolving one configuration entry. -/
structure ResolveOutcome where
  cache : CscCache
  chanCleared : Bool
  success : Bool
deriving DecidableEq, Repr

/-- Lines 50-125 of `make_pvproperty`, connection lifecycle only: open the
transient channel (registering cache entries), attempt the control read
(`readOk`), and in the `finally` (lines 121-123) send a clear request for the
channel if it is connected. The caches are not touched here. -/
def make_pvproperty_conn (cache : CscCache) (sockId : Nat) (readOk : Bool) :
    ResolveOutcome :=
  let p := make_channel_from_address cache sockId
  let chan2 :=
    if p.2.connected then { p.2 with cleared := true } else p.2
  { cache := p.1, chanCleared := chan2.cleared, success := readOk }

/-- Resolve configuration entries in order, threading the caches; the first
failing entry propagates (later entries are not resolved). -/
def resolve_all (cache : CscCache) : List (Nat × Bool) → CscCache × Bool
  | [] => (cache, true)
  | e :: rest =>
    let r := make_pvproperty_conn cache e.1 e.2
    if r.success then resolve_all r.cache rest else (r.cache, false)

/-- Lines 128-146, `make_mirror`, connection lifecycle only: resolve every
entry, and in the `finally` (lines 141-146) close all cached sockets and clear
`csc.sockets` and `csc.global_circuits` — whether resolution succeeded or
failed. -/
def make_mirror_conn (cache : CscCache) (entries : List (Nat × Bool)) :
    CscCache × Bool :=
  let r := resolve_all cache entries
  ({ sockets := [], global_circuits := [] }, r.2)

/-- C1: while the subscription callback runs, the feedback guard is set, and a
putter invocation observing the set guard returns the value (accepting it
locally) without any remote write; consequently the whole callback performs no
outbound network write to the remote PV. -/
theorem c1_callback_no_outbound_write (isEnum : Bool) (labels : List String)
    (g : GuardMap) (c : Ctx) (remoteOk storeOk : Bool) (st : Store)
    (data : Value) (ts : Nat) :
    putter isEnum labels true remoteOk data = (PutterResult.commit data, []) ∧
    (callback isEnum labels g c remoteOk storeOk st data ts).calls = [] := by
  refine ⟨by simp [putter], ?_⟩
  cases storeOk <;>
    simp [callback, callbackGuard, setGuard, inst_write, putter]

/-- C2: on a client write with the feedback guard clear, the putter forwards
the (enum-translated) requested value to the remote PV as one synchronous
write with timeout bound 500, raises `SkipWrite` so the store does not commit
the value, and the write succeeds with the local store unchanged. -/
theorem c2_forward_and_skip (isEnum : Bool) (labels : List String)
    (g : GuardMap) (c : Ctx) (storeOk : Bool) (st : Store) (v : Value)
    (now : Nat) (h : g c = false) :
    (putter isEnum labels (g c) true v).1 = PutterResult.skipWrite ∧
    client_write isEnum labels g c true storeOk st v now =
      ⟨st, [⟨if isEnum then get_raw_value labels v else v, 500⟩], true⟩ := by
  constructor
  · rw [h]; simp [putter]
  · simp [client_write, h, inst_write, putter]

/-- Witness for C2 at a concrete non-enum write of 7 in context 0. -/
theorem c2_forward_and_skip_witness :
    (putter false [] (defaultGuard 0) true (Value.num 7)).1 =
      PutterResult.skipWrite ∧
    client_write false [] defaultGuard 0 true true ⟨Value.num 1, 5⟩
        (Value.num 7) 9 =
      ⟨⟨Value.num 1, 5⟩, [⟨Value.num 7, 500⟩], true⟩ :=
  c2_forward_and_skip false [] defaultGuard 0 true ⟨Value.num 1, 5⟩
    (Value.num 7) 9 rfl

/-- C3: the guard is set (in the callback's context) before the inbound value
is applied, and after the callback completes — the inner store write
succeeding or failing — the guard in that context is false again. -/
theorem c3_guard_cleared_on_all_exits (isEnum : Bool) (labels : List String)
    (g : GuardMap) (c : Ctx) (remoteOk storeOk : Bool) (st : Store)
    (data : Value) (ts : Nat) :
    callbackGuard g c c = true ∧
    (callback isEnum labels g c remoteOk storeOk st data ts).guardAfter c =
      false := by
  refine ⟨by simp [callbackGuard, setGuard], ?_⟩
  simp [callback, setGuard]

/-- C4: if the remote write fails, the client write fails and the local store
is unchanged; and whether the remote write succeeds or fails, the guard-clear
putter path never commits the requested value to the local store. -/
theorem c4_remote_failure_no_partial_update (isEnum : Bool)
    (labels : List String) (g : GuardMap) (c : Ctx) (remoteOk storeOk : Bool)
    (st : Store) (v : Value) (now : Nat) (h : g c = false) :
    (client_write isEnum labels g c false storeOk st v now).ok = false ∧
    (client_write isEnum labels g c false storeOk st v now).store = st ∧
    (client_write isEnum labels g c remoteOk storeOk st v now).store = st := by
  refine ⟨?_, ?_, ?_⟩ <;>
    cases remoteOk <;> simp [client_write, h, inst_write, putter]

/-- Witness for C4 at a concrete failing remote write in context 0. -/
theorem c4_remote_failure_no_partial_update_witness :
    (client_write false [] defaultGuard 0 false true ⟨Value.num 1, 5⟩
        (Value.num 7) 9).ok = false ∧
    (client_write false [] defaultGuard 0 false true ⟨Value.num 1, 5⟩
        (Value.num 7) 9).store = ⟨Value.num 1, 5⟩ ∧
    (client_write false [] defaultGuard 0 false true ⟨Value.num 1, 5⟩
        (Value.num 7) 9).store = ⟨Value.num 1, 5⟩ :=
  c4_remote_failure_no_partial_update false [] defaultGuard 0 false true
    ⟨Value.num 1, 5⟩ (Value.num 7) 9 rfl

/-- C5: the built local PV definition is read-only exactly when the global
force-read-only flag is set or the remote channel lacks write access. -/
theorem c5_read_only_iff (force : Bool) (chan : Channel)
    (resp : ReadResponse) :
    (make_pvspec force chan resp).read_only = true ↔
      force = true ∨ chan.access_write = false := by
  simp [make_pvspec, Bool.or_eq_true, Bool.not_eq_true']

/-- C6: the startup hook subscribes requesting time-stamped updates, and for
every inbound update whose store write succeeds, the local store holds the
remote value with the remote update's timestamp verbatim. -/
theorem c6_timestamp_verbatim (isEnum : Bool) (labels : List String)
    (g : GuardMap) (c : Ctx) (remoteOk : Bool) (st : Store) (data : Value)
    (ts : Nat) :
    startup_subscribe_kind = DataKind.time ∧
    (callback isEnum labels g c remoteOk true st data ts).store =
      ⟨data, ts⟩ := by
  refine ⟨rfl, ?_⟩
  simp [callback, callbackGuard, setGuard, inst_write, putter]

/-- C7: for an enumerated channel the local definition's enum strings are the
response's label byte strings decoded with the channel's declared encoding;
for a non-enumerated channel no enum strings are installed; and a guard-clear
client write of a label string to an enum PV forwards exactly the label's raw
integer code to the remote. -/
theorem c7_enum_resolution_and_roundtrip (force : Bool) (chan : Channel)
    (resp : ReadResponse) (labels : List String) (s : String) (g : GuardMap)
    (c : Ctx) (storeOk : Bool) (st : Store) (now : Nat) (h : g c = false) :
    (chan.native_data_type = DType.enumType →
      (make_pvspec force chan resp).enum_strings =
        some (resp.metadata.enum_strings.map chan.string_encoding)) ∧
    (chan.native_data_type ≠ DType.enumType →
      (make_pvspec force chan resp).enum_strings = none) ∧
    (client_write true labels g c true storeOk st (Value.str s) now).calls =
      [⟨Value.num (labels.indexOf s : Int), 500⟩] := by
  refine ⟨?_, ?_, ?_⟩
  · intro he
    simp [make_pvspec, resolve_enum_strings, enum_types, he]
  · intro he
    simp [make_pvspec, resolve_enum_strings, enum_types, he]
  · simp [client_write, h, inst_write, putter, get_raw_value]

/-- Witness for C7: an enum PV with labels OFF and ON; writing the string ON
forwards raw code 1. -/
theorem c7_enum_resolution_and_roundtrip_witness :
    ((Channel.mk DType.enumType 1 (fun _ => "") true).native_data_type =
        DType.enumType →
      (make_pvspec false (Channel.mk DType.enumType 1 (fun _ => "") true)
          (ReadResponse.mk (Value.num 0)
            (ControlMetadata.mk [[1], [2]]))).enum_strings =
        some ([[1], [2]].map (fun _ => ""))) ∧
    ((Channel.mk DType.enumType 1 (fun _ => "") true).native_data_type ≠
        DType.enumType →
      (make_pvspec false (Channel.mk DType.enumType 1 (fun _ => "") true)
          (ReadResponse.mk (Value.num 0)
            (ControlMetadata.mk [[1], [2]]))).enum_strings = none) ∧
    (client_write true ["OFF", "ON"] defaultGuard 0 true true
        ⟨Value.num 0, 0⟩ (Value.str "ON") 9).calls =
      [⟨Value.num ((["OFF", "ON"].indexOf "ON" : Nat) : Int), 500⟩] :=
  c7_enum_resolution_and_roundtrip false
    (Channel.mk DType.enumType 1 (fun _ => "") true)
    (ReadResponse.mk (Value.num 0) (ControlMetadata.mk [[1], [2]]))
    ["OFF", "ON"] "ON" defaultGuard 0 true ⟨Value.num 0, 0⟩ 9 rfl

/-- C8 counterexample: with one configuration entry resolved from empty
caches, resolution completes (successfully, channel released) while the
process-wide connection caches are not cleared — they still hold the socket
and circuit opened for the resolution. -/
theorem c8_resolution_leaves_caches :
    (make_pvproperty_conn ⟨[], []⟩ 0 true).success = true ∧
    (make_pvproperty_conn ⟨[], []⟩ 0 true).chanCleared = true ∧
    (make_pvproperty_conn ⟨[], []⟩ 0 true).cache ≠ CscCache.mk [] [] := by
  decide

/-- C8 amended: on completion of each entry's resolution the transient channel
is released (a clear request is sent for the connected channel), and the
process-wide socket and circuit caches are cleared on completion of the whole
mirror assembly — whether resolution succeeded or failed — so no resolver
connection state leaks into the long-lived bridge. -/
theorem c8_assembly_clears_caches (cache : CscCache) (sid : Nat)
    (readOk : Bool) (entries : List (Nat × Bool)) :
    (make_pvproperty_conn cache sid readOk).chanCleared = true ∧
    (make_mirror_conn cache entries).1 = CscCache.mk [] [] := by
  constructor
  · simp [make_pvproperty_conn, make_channel_from_address]
  · simp [make_mirror_conn]

/-- C9: the guard set by a callback running in context `c` is observed by that
callback's own store write, leaves every other context's guard unchanged, and
a client write handled in a different context `c'` during the callback
behaves exactly as with the guard clear. -/
theorem c9_guard_scoped_per_context (isEnum : Bool) (labels : List String)
    (g : GuardMap) (c c' : Ctx) (remoteOk storeOk : Bool) (st : Store)
    (v : Value) (now : Nat) (h : c' ≠ c) :
    callbackGuard g c c = true ∧
    callbackGuard g c c' = g c' ∧
    client_write isEnum labels (callbackGuard defaultGuard c) c' remoteOk
        storeOk st v now =
      inst_write isEnum labels false remoteOk storeOk st v now := by
  refine ⟨by simp [callbackGuard, setGuard], ?_, ?_⟩
  · simp [callbackGuard, setGuard, h]
  · simp [client_write, callbackGuard, setGuard, h, defaultGuard]

/-- Witness for C9 with the callback in context 0 and a client write in
context 1. -/
theorem c9_guard_scoped_per_context_witness :
    callbackGuard defaultGuard 0 0 = true ∧
    callbackGuard defaultGuard 0 1 = defaultGuard 1 ∧
    client_write false [] (callbackGuard defaultGuard 0) 1 true true
        ⟨Value.num 1, 5⟩ (Value.num 7) 9 =
      inst_write false [] false true true ⟨Value.num 1, 5⟩ (Value.num 7) 9 :=
  c9_guard_scoped_per_context false [] defaultGuard 0 1 true true
    ⟨Value.num 1, 5⟩ (Value.num 7) 9 (by decide)

/-- C10: with the guard set the putter returns the supplied value unchanged
and performs no remote write — also for enumerated PVs, with no
string-to-raw-code conversion. -/
theorem c10_guard_set_accepts_verbatim (isEnum : Bool) (labels : List String)
    (remoteOk : Bool) (v : Value) :
    putter isEnum labels true remoteOk v = (PutterResult.commit v, []) := by
  simp [putter]

end CompleteMirror
